import Mathlib

/-!
Verification of the Keystore component of keystr-rs (src/keystore.rs).

The Keystore delegates key generation, parsing and bech32 encoding to the
external cryptography library (`nostr_sdk`).  That library is embedded
abstractly as a `NostrLib` structure of operations; the randomness of
`Keys::generate()` is embedded by passing the freshly drawn keypair value
explicitly to each operation whose body calls it.  Rust methods taking
`&mut self` become functions returning the new store (paired with the
`Result` value when the method returns one); `&self` accessors become pure
functions of the store.
-/

/-- Key-material level tracked by the store: `KeysSetState` in keystore.rs
(variants `NotSet`, `PublicOnly`, `SecretAndPublic`, with derived
equality). -/
inductive KeysSetState where
  | NotSet
  | PublicOnly
  | SecretAndPublic
  deriving DecidableEq

/-- Abstract interface of the external cryptography library (`nostr_sdk`),
covering exactly the operations keystore.rs consumes: component access
(`Keys::public_key`, `Keys::secret_key`), bech32 encoding (`to_bech32` on
each component), parsing (`Keys::from_pk_str`, `Keys::from_sk_str`) and
error display (`Error::to_string`).  Fallible library calls return
`Except`. -/
structure NostrLib where
  Keys : Type
  PublicKey : Type
  SecretKey : Type
  LibError : Type
  public_key : Keys → PublicKey
  secret_key : Keys → Except LibError SecretKey
  pk_to_bech32 : PublicKey → Except LibError String
  sk_to_bech32 : SecretKey → Except LibError String
  from_pk_str : String → Except LibError Keys
  from_sk_str : String → Except LibError Keys
  err_to_string : LibError → String

/-- The `Keystore` struct of keystore.rs: the tracked level, the (never
absent) keypair slot, and the two transient UI input holders. -/
structure Keystore (L : NostrLib) where
  set_level : KeysSetState
  keys : L.Keys
  public_key_input : String
  secret_key_input : String

variable {L : NostrLib}

/-- `Keystore::new()`: initial level `NotSet`, a freshly generated
placeholder keypair (passed here as the explicit `placeholder` draw), and
empty input strings. -/
def Keystore.new (L : NostrLib) (placeholder : L.Keys) : Keystore L :=
  { set_level := KeysSetState.NotSet
    keys := placeholder
    public_key_input := ""
    secret_key_input := "" }

/-- `Keystore::clear()`: replaces the keypair with a fresh placeholder draw
and resets the level to `NotSet`. -/
def Keystore.clear (s : Keystore L) (fresh : L.Keys) : Keystore L :=
  { s with keys := fresh, set_level := KeysSetState.NotSet }

/-- `Keystore::generate()`: assigns a fresh random keypair draw to
`self.keys` and sets the level to `SecretAndPublic`. -/
def Keystore.generate (s : Keystore L) (fresh : L.Keys) : Keystore L :=
  { s with keys := fresh, set_level := KeysSetState.SecretAndPublic }

/-- `Keystore::import_public_key()`: matches on `Keys::from_pk_str`; on
error it clears and returns the error description; on success it clears,
assigns the parsed keys and sets the level to `PublicOnly`.  The `fresh`
argument is the draw consumed by the internal `clear()` call. -/
def Keystore.import_public_key (s : Keystore L) (fresh : L.Keys)
    (public_key_str : String) : Keystore L × Except String Unit :=
  match L.from_pk_str public_key_str with
  | Except.error e => (s.clear fresh, Except.error (L.err_to_string e))
  | Except.ok k =>
      let s1 := s.clear fresh
      ({ s1 with keys := k, set_level := KeysSetState.PublicOnly },
        Except.ok ())

/-- `Keystore::import_secret_key()`: matches on `Keys::from_sk_str`; on
error it clears and returns the error description; on success it clears,
assigns the parsed keys and sets the level to `SecretAndPublic`. -/
def Keystore.import_secret_key (s : Keystore L) (fresh : L.Keys)
    (secret_key_str : String) : Keystore L × Except String Unit :=
  match L.from_sk_str secret_key_str with
  | Except.error e => (s.clear fresh, Except.error (L.err_to_string e))
  | Except.ok k =>
      let s1 := s.clear fresh
      ({ s1 with keys := k, set_level := KeysSetState.SecretAndPublic },
        Except.ok ())

/-- `Keystore::is_public_key_set()`: `self.set_level != KeysSetState::NotSet`. -/
def Keystore.is_public_key_set (s : Keystore L) : Bool :=
  decide (s.set_level ≠ KeysSetState.NotSet)

/-- `Keystore::is_secret_key_set()`: `self.set_level == KeysSetState::SecretAndPublic`. -/
def Keystore.is_secret_key_set (s : Keystore L) : Bool :=
  decide (s.set_level = KeysSetState.SecretAndPublic)

/-- `Keystore::get_keys()`: a "(not set)" error unless the secret key is
set, otherwise a clone of the keypair. -/
def Keystore.get_keys (s : Keystore L) : Except String L.Keys :=
  if !s.is_secret_key_set then Except.error "(not set)"
  else Except.ok s.keys

/-- `Keystore::get_npub()`: "(not set)" unless the public key is set,
otherwise the bech32 encoding of the public key, with "(conversion error)"
if the library's encoding step fails. -/
def Keystore.get_npub (s : Keystore L) : String :=
  if !s.is_public_key_set then "(not set)"
  else
    match L.pk_to_bech32 (L.public_key s.keys) with
    | Except.error _ => "(conversion error)"
    | Except.ok str => str

/-- `Keystore::get_nsec()`: "(not set)" unless the secret key is set,
otherwise "(no secret key)" if the keypair lacks a secret, otherwise the
bech32 encoding of the secret key, with "(conversion error)" if encoding
fails. -/
def Keystore.get_nsec (s : Keystore L) : String :=
  if !s.is_secret_key_set then "(not set)"
  else
    match L.secret_key s.keys with
    | Except.error _ => "(no secret key)"
    | Except.ok key =>
      match L.sk_to_bech32 key with
      | Except.error _ => "(conversion error)"
      | Except.ok str => str

/-- Rust `&self` accessor methods cannot mutate the store; a method call on
a receiver is embedded as the pair of the (unchanged) receiver and the
returned value, to state frame properties explicitly. -/
def Keystore.call {α : Type} (s : Keystore L) (f : Keystore L → α) :
    Keystore L × α := (s, f s)

/-- One primitive step of a mutating Keystore method, used to state claims
about statement order inside the method bodies: a parse attempt
(`Keys::from_pk_str` / `Keys::from_sk_str`), a call to `clear()`, an
assignment to `self.keys`, an assignment to `self.set_level`. -/
inductive MutStep where
  | parseAttempt
  | clearCall
  | assignKeys
  | setLevel
  deriving DecidableEq

/-- Statement sequence of `generate()` in keystore.rs: `self.keys =
Keys::generate();` then `self.set_level = KeysSetState::SecretAndPublic;`.
No `clear()` call occurs in its body. -/
def generate_steps : List MutStep := [MutStep.assignKeys, MutStep.setLevel]

/-- Statement sequence of `import_public_key()` in keystore.rs: the match
on `Keys::from_pk_str` comes first; the Err arm runs `self.clear()`; the Ok
arm runs `self.clear()`, then `self.keys = k`, then `self.set_level =
KeysSetState::PublicOnly`. -/
def import_public_key_steps (L : NostrLib) (str : String) : List MutStep :=
  match L.from_pk_str str with
  | Except.error _ => [MutStep.parseAttempt, MutStep.clearCall]
  | Except.ok _ =>
      [MutStep.parseAttempt, MutStep.clearCall, MutStep.assignKeys,
        MutStep.setLevel]

/-- Statement sequence of `import_secret_key()` in keystore.rs: the match
on `Keys::from_sk_str` comes first; the Err arm runs `self.clear()`; the Ok
arm runs `self.clear()`, then `self.keys = k`, then `self.set_level =
KeysSetState::SecretAndPublic`. -/
def import_secret_key_steps (L : NostrLib) (str : String) : List MutStep :=
  match L.from_sk_str str with
  | Except.error _ => [MutStep.parseAttempt, MutStep.clearCall]
  | Except.ok _ =>
      [MutStep.parseAttempt, MutStep.clearCall, MutStep.assignKeys,
        MutStep.setLevel]

/-- The bech32 public key string appearing in the repository's tests. -/
def NPUB : String :=
  "npub1rfze4zn25ezp6jqt5ejlhrajrfx0az72ed7cwvq0spr22k9rlnjq93lmd4"

/-- The bech32 secret key string appearing in the repository's tests; the
tests assert that its derived public key encodes to `NPUB`. -/
def NSEC : String :=
  "nsec1ktekw0hr5evjs0n9nyyquz4sue568snypy2rwk5mpv6hl2hq3vtsk0kpae"

/-- Concrete keypair values for a test model of the library: the bech32
encodings are carried directly, with the secret optional (to represent
public-only keypairs parsed by `from_pk_str`). -/
structure TestKeys where
  pk : String
  sk : Option String
  deriving DecidableEq

/-- Concrete executable model instance of the library interface, agreeing
with the behaviour the repository's tests assert of `nostr_sdk` on the test
vectors: parsing the test npub/nsec strings succeeds (with the npub derived
from the nsec exactly as the tests assert), any other input fails with a
descriptive error, and encoding returns the carried bech32 string. -/
def TestLib : NostrLib where
  Keys := TestKeys
  PublicKey := String
  SecretKey := String
  LibError := String
  public_key := fun k => k.pk
  secret_key := fun k =>
    match k.sk with
    | some s => Except.ok s
    | none => Except.error "no secret key"
  pk_to_bech32 := fun p => Except.ok p
  sk_to_bech32 := fun s => Except.ok s
  from_pk_str := fun s =>
    if s = NPUB then Except.ok { pk := NPUB, sk := none }
    else Except.error ("Invalid public key: " ++ s)
  from_sk_str := fun s =>
    if s = NSEC then Except.ok { pk := NPUB, sk := some NSEC }
    else Except.error ("Invalid secret key: " ++ s)
  err_to_string := fun e => e

/-- An empty placeholder keypair value for the test model. -/
def tkEmpty : TestKeys := { pk := "", sk := none }

/-- The test-vector keypair value in the test model: public part `NPUB`,
secret part `NSEC`. -/
def tkFull : TestKeys := { pk := NPUB, sk := some NSEC }

/-- A test-model store holding the full test keypair at level
`SecretAndPublic`. -/
def tsFull : Keystore TestLib :=
  { set_level := KeysSetState.SecretAndPublic
    keys := tkFull
    public_key_input := ""
    secret_key_input := "" }

/-- A test-model store holding only a public key at level `PublicOnly`. -/
def tsPub : Keystore TestLib :=
  { set_level := KeysSetState.PublicOnly
    keys := tkFull
    public_key_input := ""
    secret_key_input := "" }

/-- Claim C4: a freshly constructed Keystore has both flags false, both
display accessors at "(not set)", and `get_keys` failing. -/
theorem new_keystore_not_set (L : NostrLib) (placeholder : L.Keys) :
    (Keystore.new L placeholder).is_public_key_set = false ∧
    (Keystore.new L placeholder).is_secret_key_set = false ∧
    (Keystore.new L placeholder).get_npub = "(not set)" ∧
    (Keystore.new L placeholder).get_nsec = "(not set)" ∧
    (Keystore.new L placeholder).get_keys = Except.error "(not set)" := by
  refine ⟨?_, ?_, ?_, ?_, ?_⟩ <;>
    simp [Keystore.new, Keystore.is_public_key_set, Keystore.is_secret_key_set,
      Keystore.get_npub, Keystore.get_nsec, Keystore.get_keys]

/-- Claim C1: whenever `import_public_key` or `import_secret_key` returns an
error, the store afterwards has both `is_public_key_set` and
`is_secret_key_set` false (any prior state is reset, not preserved), and
the returned error is the library's error description for the failed
parse. -/
theorem import_failure_resets_state (L : NostrLib) (s : Keystore L)
    (fresh : L.Keys) (str : String) :
    (∀ e, (s.import_public_key fresh str).2 = Except.error e →
      (s.import_public_key fresh str).1.is_public_key_set = false ∧
      (s.import_public_key fresh str).1.is_secret_key_set = false ∧
      ∃ e0, L.from_pk_str str = Except.error e0 ∧ e = L.err_to_string e0) ∧
    (∀ e, (s.import_secret_key fresh str).2 = Except.error e →
      (s.import_secret_key fresh str).1.is_public_key_set = false ∧
      (s.import_secret_key fresh str).1.is_secret_key_set = false ∧
      ∃ e0, L.from_sk_str str = Except.error e0 ∧ e = L.err_to_string e0) := by
  constructor
  · intro e he
    cases hpk : L.from_pk_str str with
    | error e0 =>
        simp only [Keystore.import_public_key, hpk] at he ⊢
        refine ⟨?_, ?_, e0, rfl, ?_⟩
        · simp [Keystore.clear, Keystore.is_public_key_set]
        · simp [Keystore.clear, Keystore.is_secret_key_set]
        · cases he; rfl
    | ok k => simp [Keystore.import_public_key, hpk] at he
  · intro e he
    cases hsk : L.from_sk_str str with
    | error e0 =>
        simp only [Keystore.import_secret_key, hsk] at he ⊢
        refine ⟨?_, ?_, e0, rfl, ?_⟩
        · simp [Keystore.clear, Keystore.is_public_key_set]
        · simp [Keystore.clear, Keystore.is_secret_key_set]
        · cases he; rfl
    | ok k => simp [Keystore.import_secret_key, hsk] at he

/-- Witness for claim C1 at the repository tests' invalid input. -/
theorem import_failure_resets_state_witness :
    ((Keystore.new TestLib tkEmpty).import_public_key tkEmpty
        "__NOT_A_VALID_KEY__").1.is_public_key_set = false ∧
    ((Keystore.new TestLib tkEmpty).import_public_key tkEmpty
        "__NOT_A_VALID_KEY__").1.is_secret_key_set = false ∧
    ∃ e0, TestLib.from_pk_str "__NOT_A_VALID_KEY__" = Except.error e0 ∧
      "Invalid public key: __NOT_A_VALID_KEY__" = TestLib.err_to_string e0 :=
  (import_failure_resets_state TestLib (Keystore.new TestLib tkEmpty) tkEmpty
    "__NOT_A_VALID_KEY__").1 "Invalid public key: __NOT_A_VALID_KEY__" rfl

/-- Claim C2 (counterexample): `generate()` performs no `clear()` call at
all — its statement sequence is the keys assignment followed by the
set_level assignment — so the claim that every mutating operation performs
`clear()` as its first step fails at the operation `generate()`. -/
theorem generate_has_no_clear_step :
    MutStep.clearCall ∉ generate_steps := by decide

/-- Claim C2 (amended): `import_public_key` and `import_secret_key` run
`clear()` on every path (success and failure) before any key assignment —
though the parse attempt precedes the `clear()`, so `clear()` is not the
literal first step — while `generate()` performs no `clear()` call and
instead overwrites `keys` and `set_level` directly; consequently the result
of each of the three mutating operations is independent of the prior state,
observationally equivalent to clearing first. -/
theorem clear_before_assign_amended (L : NostrLib) (s : Keystore L)
    (f f2 : L.Keys) (str : String) :
    (import_public_key_steps L str =
        [MutStep.parseAttempt, MutStep.clearCall] ∨
      import_public_key_steps L str =
        [MutStep.parseAttempt, MutStep.clearCall, MutStep.assignKeys,
          MutStep.setLevel]) ∧
    (import_secret_key_steps L str =
        [MutStep.parseAttempt, MutStep.clearCall] ∨
      import_secret_key_steps L str =
        [MutStep.parseAttempt, MutStep.clearCall, MutStep.assignKeys,
          MutStep.setLevel]) ∧
    generate_steps = [MutStep.assignKeys, MutStep.setLevel] ∧
    (s.clear f2).generate f = s.generate f ∧
    (s.clear f2).import_public_key f str = s.import_public_key f str ∧
    (s.clear f2).import_secret_key f str = s.import_secret_key f str := by
  refine ⟨?_, ?_, rfl, rfl, ?_, ?_⟩
  · cases h : L.from_pk_str str <;> simp [import_public_key_steps, h]
  · cases h : L.from_sk_str str <;> simp [import_secret_key_steps, h]
  · cases h : L.from_pk_str str <;>
      simp [Keystore.import_public_key, h, Keystore.clear]
  · cases h : L.from_sk_str str <;>
      simp [Keystore.import_secret_key, h, Keystore.clear]

/-- Claim C3: `get_keys()` returns the full keypair exactly when the state
is `SecretAndPublic`; in every other state it fails with the "(not set)"
error. -/
theorem get_keys_iff_secret_and_public (L : NostrLib) (s : Keystore L) :
    (s.set_level = KeysSetState.SecretAndPublic →
      s.get_keys = Except.ok s.keys) ∧
    (s.set_level ≠ KeysSetState.SecretAndPublic →
      s.get_keys = Except.error "(not set)") := by
  constructor
  · intro h
    simp [Keystore.get_keys, Keystore.is_secret_key_set, h]
  · intro h
    simp [Keystore.get_keys, Keystore.is_secret_key_set, h]

/-- Witness for claim C3: the full store yields its keypair; the
public-only store fails with the "(not set)" error. -/
theorem get_keys_iff_secret_and_public_witness :
    tsFull.get_keys = Except.ok tsFull.keys ∧
    tsPub.get_keys = Except.error "(not set)" :=
  ⟨(get_keys_iff_secret_and_public TestLib tsFull).1 rfl,
    (get_keys_iff_secret_and_public TestLib tsPub).2 (by decide)⟩

/-- Claim C5: after `generate()` from any state, both flags are true,
`get_npub()` and `get_nsec()` are the library's bech32 encodings (of length
above 60 when the library produces such, as it does for its keys),
`get_keys()` returns the generated keypair, and that keypair encodes to
exactly the strings returned by `get_npub()` and `get_nsec()`. -/
theorem generate_establishes_full_keypair (L : NostrLib) (s : Keystore L)
    (fresh : L.Keys) (np ns : String) (sk : L.SecretKey)
    (hpk : L.pk_to_bech32 (L.public_key fresh) = Except.ok np)
    (hnp : 60 < np.length)
    (hsk : L.secret_key fresh = Except.ok sk)
    (hsb : L.sk_to_bech32 sk = Except.ok ns)
    (hns : 60 < ns.length) :
    (s.generate fresh).is_public_key_set = true ∧
    (s.generate fresh).is_secret_key_set = true ∧
    (s.generate fresh).get_npub = np ∧
    60 < (s.generate fresh).get_npub.length ∧
    (s.generate fresh).get_nsec = ns ∧
    60 < (s.generate fresh).get_nsec.length ∧
    (s.generate fresh).get_keys = Except.ok fresh ∧
    L.pk_to_bech32 (L.public_key fresh) =
      Except.ok ((s.generate fresh).get_npub) ∧
    L.secret_key fresh = Except.ok sk ∧
    L.sk_to_bech32 sk = Except.ok ((s.generate fresh).get_nsec) := by
  refine ⟨?_, ?_, ?_, ?_, ?_, ?_, ?_, ?_, hsk, ?_⟩ <;>
    simp [Keystore.generate, Keystore.is_public_key_set,
      Keystore.is_secret_key_set, Keystore.get_npub, Keystore.get_nsec,
      Keystore.get_keys, hpk, hsk, hsb, hnp, hns]

/-- Witness for claim C5 at the test keypair, whose bech32 encodings are
the 63-character test-vector strings. -/
theorem generate_establishes_full_keypair_witness :
    (tsPub.generate tkFull).is_public_key_set = true ∧
    (tsPub.generate tkFull).is_secret_key_set = true ∧
    (tsPub.generate tkFull).get_npub = NPUB ∧
    60 < (tsPub.generate tkFull).get_npub.length ∧
    (tsPub.generate tkFull).get_nsec = NSEC ∧
    60 < (tsPub.generate tkFull).get_nsec.length ∧
    (tsPub.generate tkFull).get_keys = Except.ok tkFull ∧
    TestLib.pk_to_bech32 (TestLib.public_key tkFull) =
      Except.ok ((tsPub.generate tkFull).get_npub) ∧
    TestLib.secret_key tkFull = Except.ok NSEC ∧
    TestLib.sk_to_bech32 NSEC =
      Except.ok ((tsPub.generate tkFull).get_nsec) :=
  generate_establishes_full_keypair TestLib tsPub tkFull NPUB NSEC NSEC
    rfl (by decide) rfl rfl (by decide)

/-- Claim C6: importing a valid secret key string `S` succeeds from any
state, after which `get_nsec()` returns `S` (the library's encoding of the
parsed secret round-trips) and `get_npub()` returns the bech32 encoding of
the public key the library derived from `S`. -/
theorem import_secret_key_roundtrip (L : NostrLib) (s : Keystore L)
    (fresh k : L.Keys) (S np : String) (sk : L.SecretKey)
    (hparse : L.from_sk_str S = Except.ok k)
    (hsk : L.secret_key k = Except.ok sk)
    (hrt : L.sk_to_bech32 sk = Except.ok S)
    (hpk : L.pk_to_bech32 (L.public_key k) = Except.ok np) :
    (s.import_secret_key fresh S).2 = Except.ok () ∧
    (s.import_secret_key fresh S).1.get_nsec = S ∧
    (s.import_secret_key fresh S).1.get_npub = np := by
  refine ⟨?_, ?_, ?_⟩ <;>
    simp [Keystore.import_secret_key, hparse, Keystore.clear,
      Keystore.get_nsec, Keystore.get_npub, Keystore.is_secret_key_set,
      Keystore.is_public_key_set, hsk, hrt, hpk]

/-- Witness for claim C6 at the repository tests' vector: importing the
test `NSEC` string into a fresh store yields `get_nsec() = NSEC` and
`get_npub() = NPUB`. -/
theorem import_secret_key_roundtrip_witness :
    ((Keystore.new TestLib tkEmpty).import_secret_key tkEmpty NSEC).2 =
      Except.ok () ∧
    ((Keystore.new TestLib tkEmpty).import_secret_key tkEmpty
        NSEC).1.get_nsec = NSEC ∧
    ((Keystore.new TestLib tkEmpty).import_secret_key tkEmpty
        NSEC).1.get_npub = NPUB :=
  import_secret_key_roundtrip TestLib (Keystore.new TestLib tkEmpty)
    tkEmpty tkFull NSEC NPUB NSEC rfl rfl rfl rfl

/-- Claim C7: a successful `import_public_key` from any state leaves the
store at level `PublicOnly`: `get_npub()` returns the bech32 encoding of
the parsed public key, while `is_secret_key_set()` is false. -/
theorem import_public_key_public_only (L : NostrLib) (s : Keystore L)
    (fresh k : L.Keys) (str np : String)
    (hparse : L.from_pk_str str = Except.ok k)
    (hpk : L.pk_to_bech32 (L.public_key k) = Except.ok np) :
    (s.import_public_key fresh str).2 = Except.ok () ∧
    (s.import_public_key fresh str).1.get_npub = np ∧
    (s.import_public_key fresh str).1.is_secret_key_set = false ∧
    (s.import_public_key fresh str).1.is_public_key_set = true ∧
    (s.import_public_key fresh str).1.set_level =
      KeysSetState.PublicOnly := by
  refine ⟨?_, ?_, ?_, ?_, ?_⟩ <;>
    simp [Keystore.import_public_key, hparse, Keystore.clear,
      Keystore.get_npub, Keystore.is_secret_key_set,
      Keystore.is_public_key_set, hpk]

/-- Witness for claim C7 at the repository tests' vector: importing the
test `NPUB` string yields `get_npub() = NPUB` with the secret flag
false. -/
theorem import_public_key_public_only_witness :
    ((Keystore.new TestLib tkEmpty).import_public_key tkEmpty NPUB).2 =
      Except.ok () ∧
    ((Keystore.new TestLib tkEmpty).import_public_key tkEmpty
        NPUB).1.get_npub = NPUB ∧
    ((Keystore.new TestLib tkEmpty).import_public_key tkEmpty
        NPUB).1.is_secret_key_set = false ∧
    ((Keystore.new TestLib tkEmpty).import_public_key tkEmpty
        NPUB).1.is_public_key_set = true ∧
    ((Keystore.new TestLib tkEmpty).import_public_key tkEmpty
        NPUB).1.set_level = KeysSetState.PublicOnly :=
  import_public_key_public_only TestLib (Keystore.new TestLib tkEmpty)
    tkEmpty { pk := NPUB, sk := none } NPUB NPUB rfl rfl

/-- Claim C8: `clear()` is idempotent — clearing twice yields the same
store as clearing once (with the same final placeholder draw), and after a
`clear()` the state is `NotSet` with every observable accessor at its
not-set result. -/
theorem clear_idempotent (L : NostrLib) (s : Keystore L)
    (f1 f2 f : L.Keys) :
    (s.clear f1).clear f2 = s.clear f2 ∧
    (s.clear f).set_level = KeysSetState.NotSet ∧
    (s.clear f).is_public_key_set = false ∧
    (s.clear f).is_secret_key_set = false ∧
    (s.clear f).get_npub = "(not set)" ∧
    (s.clear f).get_nsec = "(not set)" ∧
    (s.clear f).get_keys = Except.error "(not set)" := by
  refine ⟨rfl, rfl, ?_, ?_, ?_, ?_, ?_⟩ <;>
    simp [Keystore.clear, Keystore.is_public_key_set,
      Keystore.is_secret_key_set, Keystore.get_npub, Keystore.get_nsec,
      Keystore.get_keys]

/-- Claim C9: the five accessors have no side effects — a call returns the
receiver unchanged in every field — and the flags satisfy
`is_public_key_set` true iff the level is not `NotSet` and
`is_secret_key_set` true iff the level is `SecretAndPublic`. -/
theorem accessors_pure_and_flag_semantics (L : NostrLib) (s : Keystore L) :
    (s.call Keystore.is_public_key_set).1 = s ∧
    (s.call Keystore.is_secret_key_set).1 = s ∧
    (s.call Keystore.get_keys).1 = s ∧
    (s.call Keystore.get_npub).1 = s ∧
    (s.call Keystore.get_nsec).1 = s ∧
    (s.is_public_key_set = true ↔ s.set_level ≠ KeysSetState.NotSet) ∧
    (s.is_secret_key_set = true ↔
      s.set_level = KeysSetState.SecretAndPublic) := by
  refine ⟨rfl, rfl, rfl, rfl, rfl, ?_, ?_⟩ <;>
    simp [Keystore.is_public_key_set, Keystore.is_secret_key_set]

/-- Claim C10: every mutating operation — `clear()`, `generate()`,
`import_public_key()` and `import_secret_key()`, on success or failure —
leaves `public_key_input` and `secret_key_input` unchanged, and `new()`
initializes both to the empty string. -/
theorem mutators_preserve_input_fields (L : NostrLib) (s : Keystore L)
    (f p : L.Keys) (str : String) :
    (s.clear f).public_key_input = s.public_key_input ∧
    (s.clear f).secret_key_input = s.secret_key_input ∧
    (s.generate f).public_key_input = s.public_key_input ∧
    (s.generate f).secret_key_input = s.secret_key_input ∧
    (s.import_public_key f str).1.public_key_input = s.public_key_input ∧
    (s.import_public_key f str).1.secret_key_input = s.secret_key_input ∧
    (s.import_secret_key f str).1.public_key_input = s.public_key_input ∧
    (s.import_secret_key f str).1.secret_key_input = s.secret_key_input ∧
    (Keystore.new L p).public_key_input = "" ∧
    (Keystore.new L p).secret_key_input = "" := by
  refine ⟨rfl, rfl, rfl, rfl, ?_, ?_, ?_, ?_, rfl, rfl⟩
  · cases h : L.from_pk_str str <;>
      simp [Keystore.import_public_key, h, Keystore.clear]
  · cases h : L.from_pk_str str <;>
      simp [Keystore.import_public_key, h, Keystore.clear]
  · cases h : L.from_sk_str str <;>
      simp [Keystore.import_secret_key, h, Keystore.clear]
  · cases h : L.from_sk_str str <;>
      simp [Keystore.import_secret_key, h, Keystore.clear]
